import Mathlib

/-!
Shallow embedding of the Fortitude Python client
(`fortitude_client.py`): the request-execution engine `_make_request` of the
blocking client `FortitudeClient` and of the cooperative client
`AsyncFortitudeClient`, together with the in-memory TTL cache, the cache-key
canonicalization, and the constructor's configuration resolution.

Modelling conventions:
- A decoded JSON body is a `JsonDoc`: the four optional error fields the
  client reads via `.get`, plus an opaque `payload` string standing for any
  further document content.
- A transport attempt's outcome is either a library exception
  (`requests.exceptions.RequestException` in the blocking client,
  `aiohttp.ClientError` in the cooperative one) carrying a cause string, or
  an `HttpResponse` carrying the status, whether the `Content-Type` is JSON
  (`ctJson`), whether the body text parses as JSON (`decodes`), the parsed
  document, and the raw text.
- Library decoding semantics are modelled from the libraries' documented
  behaviour: `requests`' `Response.json()` parses the text regardless of
  content type and on failure raises `requests.exceptions.JSONDecodeError`,
  which is both a `json.JSONDecodeError` and a `RequestException`;
  `aiohttp`'s `response.json()` raises `aiohttp.ContentTypeError` (a
  `ClientError`) when the content type is not JSON, and a plain
  `json.JSONDecodeError` (not a `ClientError`) when the type is JSON but the
  text does not parse.
- Time is an integer; `time.time()` is passed in as `now`, one value per
  logical call.
- `max_retries` is a natural number (the claims under study concern the
  non-negative range, and `range(max_retries + 1)` is empty below it).
-/

/-- Decoded JSON body: the optional error fields the client reads, plus an
opaque remainder distinguishing payloads. -/
structure JsonDoc where
  message : Option String := none
  error_code : Option String := none
  request_id : Option String := none
  details : Option String := none
  payload : String := ""
deriving DecidableEq, Repr

/-- An HTTP response as the transport layer hands it to the client. -/
structure HttpResponse where
  status : Nat
  ctJson : Bool := true
  decodes : Bool := true
  doc : JsonDoc := {}
  text : String := ""
deriving DecidableEq, Repr

/-- Outcome of one transport dispatch: a transport-layer exception or a
response. -/
inductive TransportOutcome where
  | exception (cause : String)
  | response (r : HttpResponse)
deriving DecidableEq, Repr

/-- The fields of the `FortitudeAPIError` exception class. -/
structure FortitudeAPIError where
  message : String
  error_code : Option String := none
  status_code : Option Nat := none
  request_id : Option String := none
  details : Option String := none
deriving DecidableEq, Repr

/-- What one `_make_request` call delivers to its caller: a decoded success
payload, a raised `FortitudeAPIError`, or an exception of another class
escaping uncaught. -/
inductive CallResult where
  | success (data : JsonDoc)
  | apiError (e : FortitudeAPIError)
  | uncaught (cause : String)
deriving DecidableEq, Repr

/-- One entry of the in-memory cache dict: `{'data': ..., 'timestamp': ...}`. -/
structure CacheEntry where
  data : JsonDoc
  timestamp : Int
deriving DecidableEq, Repr

/-- The client's `_cache` dict, as an association list; a write prepends and
lookups take the first binding. -/
abbrev Cache := List (String × CacheEntry)

/-- Dict lookup on the cache. -/
def cacheFind (key : String) : Cache → Option CacheEntry
  | [] => none
  | (k, e) :: rest => if k = key then some e else cacheFind key rest

/-- The configuration fields of the client that the request engine reads. -/
structure ClientConfig where
  max_retries : Nat
  enable_cache : Bool
  cache_ttl : Int
deriving DecidableEq, Repr

/-- Ordering of query parameters by key, as `json.dumps(..., sort_keys=True)`
orders a dict's items. -/
def keyLE (a b : String × String) : Prop := a.1 ≤ b.1

instance : DecidableRel keyLE := fun a b => inferInstanceAs (Decidable (a.1 ≤ b.1))

instance : IsTotal (String × String) keyLE := ⟨fun a b => le_total a.1 b.1⟩

instance : IsTrans (String × String) keyLE := ⟨fun _ _ _ h₁ h₂ => le_trans h₁ h₂⟩

/-- Serialization of the params dict by `json.dumps(params or \x7b\x7d,
sort_keys=True)`: items sorted by key, rendered between braces. -/
def jsonDumpsSorted (params : List (String × String)) : String :=
  "\x7b" ++ String.intercalate ", "
    ((List.insertionSort keyLE params).map
      (fun kv => "\"" ++ kv.1 ++ "\": \"" ++ kv.2 ++ "\"")) ++ "\x7d"

/-- The cache key `f"\x7bmethod\x7d:\x7burl\x7d:\x7bjson.dumps(params or
\x7b\x7d, sort_keys=True)\x7d"`. -/
def cacheKey (method url : String) (params : List (String × String)) : String :=
  method ++ ":" ++ url ++ ":" ++ jsonDumpsSorted params

/-- The cache-consultation step (the guarded lookup at the top of
`_make_request`): serves the stored data only on a live hit, and never
mutates the cache. -/
def cacheServe (use_cache enable_cache : Bool) (method key : String)
    (cache_ttl now : Int) (cache : Cache) : Option JsonDoc :=
  if use_cache = true ∧ enable_cache = true ∧ method = "GET" then
    match cacheFind key cache with
    | some entry => if now - entry.timestamp < cache_ttl then some entry.data else none
    | none => none
  else none

/-- Statuses retried by the engine: rate limiting and transient server
errors. -/
def transientStatuses : List Nat := [429, 500, 502, 503, 504]

/-- Message of the `FortitudeAPIError` raised when retries are exhausted on a
transport exception: `f"Request failed: \x7be\x7d"`. -/
def requestFailedMsg (cause : String) : String := "Request failed: " ++ cause

/-- Stands for `str` of the `requests.exceptions.JSONDecodeError` that
`Response.json()` raises on an unparsable body in the blocking client. -/
def requestsDecodeCause : String := "Expecting value: line 1 column 1 (char 0)"

/-- Stands for `str` of the `aiohttp.ContentTypeError` that `response.json()`
raises on a non-JSON content type in the cooperative client. -/
def aiohttpContentTypeCause : String :=
  "Attempt to decode JSON with unexpected mimetype"

/-- Stands for the `json.JSONDecodeError` that escapes the cooperative
client uncaught (it is not an `aiohttp.ClientError`). -/
def jsonDecodeEscapeCause : String := "json.decoder.JSONDecodeError"

/-- The `FortitudeAPIError` built when the error body does not decode:
message embeds the raw status and raw text, other fields absent. -/
def rawStatusError (r : HttpResponse) : FortitudeAPIError :=
  { message := "HTTP " ++ toString r.status ++ ": " ++ r.text
    status_code := some r.status }

/-- The `FortitudeAPIError` built from a decoded structured error body. -/
def structuredError (r : HttpResponse) : FortitudeAPIError :=
  { message := r.doc.message.getD "Unknown error"
    error_code := r.doc.error_code
    status_code := some r.status
    request_id := r.doc.request_id
    details := r.doc.details }

/-- The per-call parameters the attempt loop reads. -/
structure LoopParams where
  max_retries : Nat
  cacheWrite : Bool
  key : String
  now : Int
deriving DecidableEq, Repr

/-- Default outcome when the supplied outcome list is shorter than the number
of dispatches: the transport always produces something; a bare exception is
the neutral stand-in. -/
def noOutcome : TransportOutcome := .exception "connection error"

/-- Outcome observed by the dispatch of a given attempt index. -/
def outcomeAt (outcomes : List TransportOutcome) (i : Nat) : TransportOutcome :=
  outcomes.getD i noOutcome

/-- What the attempt loop produced: `result = none` models the `for` loop
completing all iterations without `return`/`raise` (reaching the trailing
`raise FortitudeAPIError("Max retries exceeded")`), `attempts` counts
transport dispatches, `delays` the sleeps performed in order. -/
structure LoopOut where
  result : Option CallResult
  attempts : Nat
  delays : List Nat
  cache : Cache
deriving DecidableEq, Repr

/-- The attempt loop of the blocking client's `_make_request`
(`for attempt in range(self.max_retries + 1)`), transcribed branch by
branch; `iters` is the number of iterations left, `attempt` the current
index. -/
def FortitudeClient.attemptLoop (p : LoopParams) (outcomes : List TransportOutcome)
    (cache : Cache) (attempt : Nat) : (iters : Nat) → LoopOut
  | 0 => ⟨none, 0, [], cache⟩
  | iters' + 1 =>
    match outcomeAt outcomes attempt with
    | .exception cause =>
      if attempt < p.max_retries then
        let rest := FortitudeClient.attemptLoop p outcomes cache (attempt + 1) iters'
        ⟨rest.result, rest.attempts + 1, 2 ^ attempt :: rest.delays, rest.cache⟩
      else ⟨some (.apiError { message := requestFailedMsg cause }), 1, [], cache⟩
    | .response r =>
      if r.status = 200 then
        if r.decodes then
          let cache' := if p.cacheWrite then (p.key, ⟨r.doc, p.now⟩) :: cache else cache
          ⟨some (.success r.doc), 1, [], cache'⟩
        else
          -- requests: the JSONDecodeError from `response.json()` is a
          -- RequestException, so the outer handler treats it as a
          -- transport failure
          if attempt < p.max_retries then
            let rest := FortitudeClient.attemptLoop p outcomes cache (attempt + 1) iters'
            ⟨rest.result, rest.attempts + 1, 2 ^ attempt :: rest.delays, rest.cache⟩
          else
            ⟨some (.apiError { message := requestFailedMsg requestsDecodeCause }), 1, [], cache⟩
      else if r.status ∈ transientStatuses ∧ attempt < p.max_retries then
        let rest := FortitudeClient.attemptLoop p outcomes cache (attempt + 1) iters'
        ⟨rest.result, rest.attempts + 1, 2 ^ attempt :: rest.delays, rest.cache⟩
      else
        if r.decodes then ⟨some (.apiError (structuredError r)), 1, [], cache⟩
        else ⟨some (.apiError (rawStatusError r)), 1, [], cache⟩

/-- The attempt loop of the cooperative client's `_make_request`, transcribed
branch by branch. It differs from the blocking loop where the two HTTP
libraries' `json()` behaviours differ: `aiohttp` raises `ContentTypeError`
(caught: by the outer handler on the 200 path, by the inner `except` in
error construction) on a non-JSON content type, and a plain
`json.JSONDecodeError` — caught by neither handler, so escaping — on a
JSON content type whose text does not parse. -/
def AsyncFortitudeClient.attemptLoop (p : LoopParams) (outcomes : List TransportOutcome)
    (cache : Cache) (attempt : Nat) : (iters : Nat) → LoopOut
  | 0 => ⟨none, 0, [], cache⟩
  | iters' + 1 =>
    match outcomeAt outcomes attempt with
    | .exception cause =>
      if attempt < p.max_retries then
        let rest := AsyncFortitudeClient.attemptLoop p outcomes cache (attempt + 1) iters'
        ⟨rest.result, rest.attempts + 1, 2 ^ attempt :: rest.delays, rest.cache⟩
      else ⟨some (.apiError { message := requestFailedMsg cause }), 1, [], cache⟩
    | .response r =>
      if r.status = 200 then
        if r.ctJson then
          if r.decodes then
            let cache' := if p.cacheWrite then (p.key, ⟨r.doc, p.now⟩) :: cache else cache
            ⟨some (.success r.doc), 1, [], cache'⟩
          else ⟨some (.uncaught jsonDecodeEscapeCause), 1, [], cache⟩
        else
          -- ContentTypeError is a ClientError: retried like a transport failure
          if attempt < p.max_retries then
            let rest := AsyncFortitudeClient.attemptLoop p outcomes cache (attempt + 1) iters'
            ⟨rest.result, rest.attempts + 1, 2 ^ attempt :: rest.delays, rest.cache⟩
          else
            ⟨some (.apiError { message := requestFailedMsg aiohttpContentTypeCause }), 1, [], cache⟩
      else if r.status ∈ transientStatuses ∧ attempt < p.max_retries then
        let rest := AsyncFortitudeClient.attemptLoop p outcomes cache (attempt + 1) iters'
        ⟨rest.result, rest.attempts + 1, 2 ^ attempt :: rest.delays, rest.cache⟩
      else
        if r.ctJson then
          if r.decodes then ⟨some (.apiError (structuredError r)), 1, [], cache⟩
          else ⟨some (.uncaught jsonDecodeEscapeCause), 1, [], cache⟩
        else ⟨some (.apiError (rawStatusError r)), 1, [], cache⟩

/-- What a whole `_make_request` call delivers. -/
structure CallOutput where
  result : CallResult
  attempts : Nat
  delays : List Nat
  cache : Cache
deriving DecidableEq, Repr

/-- The blocking client's `_make_request`: cache consultation, then the
attempt loop, then the trailing `raise FortitudeAPIError("Max retries
exceeded")` when the loop falls through. -/
def FortitudeClient.make_request (cfg : ClientConfig) (method url : String)
    (params : List (String × String)) (use_cache : Bool) (now : Int)
    (outcomes : List TransportOutcome) (cache : Cache) : CallOutput :=
  let key := cacheKey method url params
  match cacheServe use_cache cfg.enable_cache method key cfg.cache_ttl now cache with
  | some d => ⟨.success d, 0, [], cache⟩
  | none =>
    let write := use_cache && cfg.enable_cache && decide (method = "GET")
    let lo := FortitudeClient.attemptLoop ⟨cfg.max_retries, write, key, now⟩
      outcomes cache 0 (cfg.max_retries + 1)
    ⟨lo.result.getD (.apiError { message := "Max retries exceeded" }),
      lo.attempts, lo.delays, lo.cache⟩

/-- The cooperative client's `_make_request`: identical cache consultation
and trailing raise around its own attempt loop. -/
def AsyncFortitudeClient.make_request (cfg : ClientConfig) (method url : String)
    (params : List (String × String)) (use_cache : Bool) (now : Int)
    (outcomes : List TransportOutcome) (cache : Cache) : CallOutput :=
  let key := cacheKey method url params
  match cacheServe use_cache cfg.enable_cache method key cfg.cache_ttl now cache with
  | some d => ⟨.success d, 0, [], cache⟩
  | none =>
    let write := use_cache && cfg.enable_cache && decide (method = "GET")
    let lo := AsyncFortitudeClient.attemptLoop ⟨cfg.max_retries, write, key, now⟩
      outcomes cache 0 (cfg.max_retries + 1)
    ⟨lo.result.getD (.apiError { message := "Max retries exceeded" }),
      lo.attempts, lo.delays, lo.cache⟩

/-- Python's `s.rstrip('/')`. -/
def rstripSlash (s : String) : String :=
  String.mk (s.data.reverse.dropWhile (fun c => c = '/')).reverse

/-- Constructor resolution of the base address:
`(base_url or os.getenv('FORTITUDE_BASE_URL', 'http://localhost:8080')).rstrip('/')`.
`env` is the environment variable's value when set. An explicit argument is
used only when truthy (non-empty). -/
def resolve_base_url (explicit env : Option String) : String :=
  rstripSlash (match explicit with
    | some s => if s ≠ "" then s else env.getD "http://localhost:8080"
    | none => env.getD "http://localhost:8080")

/-- Constructor resolution of the timeout:
`timeout or int(os.getenv('FORTITUDE_TIMEOUT', '30'))`. `env` is the
environment variable's value, pre-parsed by `int`. An explicit argument is
used only when truthy (non-zero). -/
def resolve_timeout (explicit env : Option Int) : Int :=
  match explicit with
  | some t => if t ≠ 0 then t else env.getD 30
  | none => env.getD 30

/-- Constructor resolution of the retry bound:
`max_retries or int(os.getenv('FORTITUDE_MAX_RETRIES', '3'))`. `env` is the
environment variable's value, pre-parsed by `int`. An explicit argument is
used only when truthy (non-zero). -/
def resolve_max_retries (explicit env : Option Int) : Int :=
  match explicit with
  | some t => if t ≠ 0 then t else env.getD 3
  | none => env.getD 3

/-! ## Lemmas about the blocking attempt loop -/

/-- The loop performs at most one transport dispatch per iteration. -/
theorem FortitudeClient.attemptLoop_attempts_le (p : LoopParams)
    (outcomes : List TransportOutcome) (cache : Cache) (attempt iters : Nat) :
    (FortitudeClient.attemptLoop p outcomes cache attempt iters).attempts ≤ iters := by
  induction iters generalizing cache attempt with
  | zero => simp [FortitudeClient.attemptLoop]
  | succ n ih =>
    unfold FortitudeClient.attemptLoop
    cases outcomeAt outcomes attempt with
    | exception cause =>
      dsimp only
      split
      · exact Nat.succ_le_succ (ih cache (attempt + 1))
      · dsimp only; omega
    | response r =>
      dsimp only
      split
      · split
        · dsimp only; omega
        · split
          · exact Nat.succ_le_succ (ih cache (attempt + 1))
          · dsimp only; omega
      · split
        · exact Nat.succ_le_succ (ih cache (attempt + 1))
        · split <;> (dsimp only; omega)

/-- Every iteration that retries sleeps `2 ^ attempt`, so the recorded delays
from a loop entered at index `attempt` are `2 ^ attempt, 2 ^ (attempt + 1), …`. -/
theorem FortitudeClient.attemptLoop_delays (p : LoopParams)
    (outcomes : List TransportOutcome) (cache : Cache) (attempt iters : Nat) :
    ∃ k, (FortitudeClient.attemptLoop p outcomes cache attempt iters).delays
      = (List.range' attempt k).map (fun i => 2 ^ i) := by
  induction iters generalizing cache attempt with
  | zero => exact ⟨0, by simp [FortitudeClient.attemptLoop]⟩
  | succ n ih =>
    unfold FortitudeClient.attemptLoop
    cases outcomeAt outcomes attempt with
    | exception cause =>
      dsimp only
      split
      · obtain ⟨k, hk⟩ := ih cache (attempt + 1)
        refine ⟨k + 1, ?_⟩
        rw [List.range'_succ attempt k 1, List.map_cons]
        dsimp only
        rw [hk]
      · exact ⟨0, by simp⟩
    | response r =>
      dsimp only
      split
      · split
        · exact ⟨0, by simp⟩
        · split
          · obtain ⟨k, hk⟩ := ih cache (attempt + 1)
            refine ⟨k + 1, ?_⟩
            rw [List.range'_succ attempt k 1, List.map_cons]
            dsimp only
            rw [hk]
          · exact ⟨0, by simp⟩
      · split
        · obtain ⟨k, hk⟩ := ih cache (attempt + 1)
          refine ⟨k + 1, ?_⟩
          rw [List.range'_succ attempt k 1, List.map_cons]
          dsimp only
          rw [hk]
        · split <;> exact ⟨0, by simp⟩

/-- Entered with exactly `max_retries + 1 - attempt` iterations left and
`attempt ≤ max_retries`, the loop always returns or raises: the retrying
branches are guarded by `attempt < max_retries`, so the final iteration is
forced into a terminal branch. -/
theorem FortitudeClient.attemptLoop_result_isSome (p : LoopParams)
    (outcomes : List TransportOutcome) (cache : Cache) (attempt iters : Nat)
    (h : attempt + iters = p.max_retries + 1) (h2 : attempt ≤ p.max_retries) :
    (FortitudeClient.attemptLoop p outcomes cache attempt iters).result ≠ none := by
  induction iters generalizing cache attempt with
  | zero => omega
  | succ n ih =>
    unfold FortitudeClient.attemptLoop
    cases outcomeAt outcomes attempt with
    | exception cause =>
      dsimp only
      split
      · exact ih cache (attempt + 1) (by omega) (by omega)
      · simp
    | response r =>
      dsimp only
      split
      · split
        · simp
        · split
          · exact ih cache (attempt + 1) (by omega) (by omega)
          · simp
      · split
        · exact ih cache (attempt + 1) (by omega) (by omega)
        · split <;> simp

/-! ## Characterizations of a whole call on cache hit and cache miss -/

/-- On a live cache hit the call returns the stored data, makes no transport
attempt, sleeps nothing, and leaves the cache unchanged. -/
theorem FortitudeClient.make_request_hit (cfg : ClientConfig) (method url : String)
    (params : List (String × String)) (use_cache : Bool) (now : Int)
    (outcomes : List TransportOutcome) (cache : Cache) (d : JsonDoc)
    (h : cacheServe use_cache cfg.enable_cache method (cacheKey method url params)
      cfg.cache_ttl now cache = some d) :
    FortitudeClient.make_request cfg method url params use_cache now outcomes cache
      = ⟨.success d, 0, [], cache⟩ := by
  unfold FortitudeClient.make_request
  dsimp only
  rw [h]

/-- When the cache does not serve, the call is the attempt loop entered at
`attempt = 0` with `max_retries + 1` iterations. -/
theorem FortitudeClient.make_request_miss (cfg : ClientConfig) (method url : String)
    (params : List (String × String)) (use_cache : Bool) (now : Int)
    (outcomes : List TransportOutcome) (cache : Cache)
    (h : cacheServe use_cache cfg.enable_cache method (cacheKey method url params)
      cfg.cache_ttl now cache = none) :
    FortitudeClient.make_request cfg method url params use_cache now outcomes cache
      = (fun lo => (⟨lo.result.getD (.apiError { message := "Max retries exceeded" }),
            lo.attempts, lo.delays, lo.cache⟩ : CallOutput))
          (FortitudeClient.attemptLoop
            ⟨cfg.max_retries, use_cache && cfg.enable_cache && decide (method = "GET"),
              cacheKey method url params, now⟩ outcomes cache 0 (cfg.max_retries + 1)) := by
  unfold FortitudeClient.make_request
  dsimp only
  rw [h]

/-- C1: for every request and every sequence of transport outcomes, a single
call to `FortitudeClient._make_request` performs at most `max_retries + 1`
transport attempts (dispatches to the underlying session). -/
theorem make_request_attempts_le_max_retries_succ (cfg : ClientConfig)
    (method url : String) (params : List (String × String)) (use_cache : Bool)
    (now : Int) (outcomes : List TransportOutcome) (cache : Cache) :
    (FortitudeClient.make_request cfg method url params use_cache now
      outcomes cache).attempts ≤ cfg.max_retries + 1 := by
  cases h : cacheServe use_cache cfg.enable_cache method (cacheKey method url params)
      cfg.cache_ttl now cache with
  | some d =>
    rw [FortitudeClient.make_request_hit cfg method url params use_cache now outcomes cache d h]
    simp
  | none =>
    rw [FortitudeClient.make_request_miss cfg method url params use_cache now outcomes cache h]
    exact FortitudeClient.attemptLoop_attempts_le _ outcomes cache 0 (cfg.max_retries + 1)

/-- C4: for every attempt index `i` at which a retry is performed, the delay
slept before the next attempt is `base_unit * 2 ^ i` (base unit 1), so the
delay sequence of any call is exactly `1, 2, 4, 8, ...` — for
transient-status retries and transport-failure retries alike. -/
theorem make_request_delays_doubling (cfg : ClientConfig)
    (method url : String) (params : List (String × String)) (use_cache : Bool)
    (now : Int) (outcomes : List TransportOutcome) (cache : Cache) :
    (FortitudeClient.make_request cfg method url params use_cache now
        outcomes cache).delays
      = (List.range (FortitudeClient.make_request cfg method url params use_cache now
          outcomes cache).delays.length).map (fun i => 2 ^ i) := by
  cases h : cacheServe use_cache cfg.enable_cache method (cacheKey method url params)
      cfg.cache_ttl now cache with
  | some d =>
    rw [FortitudeClient.make_request_hit cfg method url params use_cache now outcomes cache d h]
    simp
  | none =>
    rw [FortitudeClient.make_request_miss cfg method url params use_cache now outcomes cache h]
    obtain ⟨k, hk⟩ := FortitudeClient.attemptLoop_delays
      ⟨cfg.max_retries, use_cache && cfg.enable_cache && decide (method = "GET"),
        cacheKey method url params, now⟩ outcomes cache 0 (cfg.max_retries + 1)
    dsimp only
    rw [hk]
    simp [List.length_range', List.range_eq_range']

/-- C10: entered as `_make_request` enters it (`attempt = 0`, iteration
count `max_retries + 1 ≥ 1`), the blocking attempt loop always returns or
raises within its iterations — the retrying branches are guarded by
`attempt < max_retries`, so the last iteration cannot continue — and hence
the trailing `raise FortitudeAPIError("Max retries exceeded")` after the
loop is unreachable. -/
theorem attemptLoop_trailing_raise_unreachable (p : LoopParams)
    (outcomes : List TransportOutcome) (cache : Cache) :
    (FortitudeClient.attemptLoop p outcomes cache 0 (p.max_retries + 1)).result ≠ none :=
  FortitudeClient.attemptLoop_result_isSome p outcomes cache 0 (p.max_retries + 1)
    (by omega) (by omega)

/-! ## Exhausted retries on consecutive 500 responses -/

/-- Recognizes a transport outcome that is a response with HTTP status 500. -/
def isStatus500 (o : TransportOutcome) : Bool :=
  match o with
  | .response r => r.status = 500
  | .exception _ => false

/-- When every examined outcome is a 500 response, each non-final iteration
retries and the final one raises the error classified from the last 500. -/
theorem FortitudeClient.attemptLoop_all_500 (p : LoopParams)
    (outcomes : List TransportOutcome) (cache : Cache) (attempt iters : Nat)
    (h : attempt + iters = p.max_retries + 1) (h2 : attempt ≤ p.max_retries)
    (hall : ∀ i, attempt ≤ i → i ≤ p.max_retries → isStatus500 (outcomeAt outcomes i) = true) :
    (FortitudeClient.attemptLoop p outcomes cache attempt iters).attempts = iters ∧
    ∃ e, (FortitudeClient.attemptLoop p outcomes cache attempt iters).result
        = some (.apiError e) ∧ e.status_code = some 500 := by
  induction iters generalizing cache attempt with
  | zero => omega
  | succ n ih =>
    have h5 := hall attempt le_rfl h2
    unfold FortitudeClient.attemptLoop
    cases ho : outcomeAt outcomes attempt with
    | exception cause => rw [ho] at h5; simp [isStatus500] at h5
    | response r =>
      rw [ho] at h5
      have hr : r.status = 500 := by simpa [isStatus500] using h5
      dsimp only
      split
      · omega
      · split
        · obtain ⟨ha, e, hres, hcode⟩ := ih cache (attempt + 1) (by omega)
            (by rename_i hc; exact hc.2) (fun i hi₁ hi₂ => hall i (by omega) hi₂)
          refine ⟨by dsimp only; omega, e, ?_, hcode⟩
          dsimp only
          exact hres
        · rename_i hnc
          have hmem : r.status ∈ transientStatuses := by rw [hr]; decide
          have hge : ¬ attempt < p.max_retries := fun hlt => hnc ⟨hmem, hlt⟩
          have hn0 : n = 0 := by omega
          split
          · exact ⟨by dsimp only; omega, structuredError r, rfl, by simp [structuredError, hr]⟩
          · exact ⟨by dsimp only; omega, rawStatusError r, rfl, by simp [rawStatusError, hr]⟩

/-- C2: if every transport attempt of a call observes HTTP status 500
(`max_retries` consecutive 500 responses after the first), the call performs
exactly `max_retries + 1` transport attempts and raises the terminal
`FortitudeAPIError` classified from the last 500 response — the state the
specification's taxonomy names `ExhaustedRetries`. -/
theorem make_request_all_500_exhausted (cfg : ClientConfig) (method url : String)
    (params : List (String × String)) (use_cache : Bool) (now : Int)
    (outcomes : List TransportOutcome) (cache : Cache)
    (hmiss : cacheServe use_cache cfg.enable_cache method (cacheKey method url params)
      cfg.cache_ttl now cache = none)
    (hall : ∀ i, i ≤ cfg.max_retries → isStatus500 (outcomeAt outcomes i) = true) :
    (FortitudeClient.make_request cfg method url params use_cache now outcomes cache).attempts
        = cfg.max_retries + 1 ∧
    ∃ e, (FortitudeClient.make_request cfg method url params use_cache now
        outcomes cache).result = .apiError e ∧ e.status_code = some 500 := by
  rw [FortitudeClient.make_request_miss cfg method url params use_cache now outcomes cache hmiss]
  obtain ⟨ha, e, hres, hcode⟩ := FortitudeClient.attemptLoop_all_500
    ⟨cfg.max_retries, use_cache && cfg.enable_cache && decide (method = "GET"),
      cacheKey method url params, now⟩ outcomes cache 0 (cfg.max_retries + 1)
    (by dsimp only; omega) (Nat.zero_le _) (fun i _ hi₂ => hall i hi₂)
  refine ⟨ha, e, ?_, hcode⟩
  dsimp only
  rw [hres]
  rfl

/-- Witness for C2: three consecutive 500 responses with `max_retries = 2`
give three attempts and a raised error with status 500. -/
theorem make_request_all_500_witness :
    (FortitudeClient.make_request ⟨2, false, 300⟩ "GET" "/u" [] true 0
      [.response ⟨500, true, true, {}, ""⟩, .response ⟨500, true, true, {}, ""⟩,
       .response ⟨500, true, true, {}, ""⟩] []).attempts = 2 + 1 ∧
    ∃ e, (FortitudeClient.make_request ⟨2, false, 300⟩ "GET" "/u" [] true 0
      [.response ⟨500, true, true, {}, ""⟩, .response ⟨500, true, true, {}, ""⟩,
       .response ⟨500, true, true, {}, ""⟩] []).result = .apiError e ∧
      e.status_code = some 500 :=
  make_request_all_500_exhausted ⟨2, false, 300⟩ "GET" "/u" [] true 0 _ []
    (by decide) (by decide)

/-! ## Immediate surfacing of non-retryable statuses -/

/-- C5: a response whose status is neither 200 nor transient (for example
404) surfaces immediately: one transport attempt, no sleeps, and a
`FortitudeAPIError` whose fields are copied from the decoded body (message
defaulting to "Unknown error") when the body decodes, and whose message
embeds the raw status code and raw text — with no code, request id or
details — when it does not. -/
theorem make_request_client_error_immediate (cfg : ClientConfig) (method url : String)
    (params : List (String × String)) (use_cache : Bool) (now : Int)
    (outcomes : List TransportOutcome) (cache : Cache) (r : HttpResponse)
    (hmiss : cacheServe use_cache cfg.enable_cache method (cacheKey method url params)
      cfg.cache_ttl now cache = none)
    (h0 : outcomeAt outcomes 0 = .response r)
    (hne : r.status ≠ 200)
    (hnt : r.status ∉ transientStatuses) :
    (FortitudeClient.make_request cfg method url params use_cache now outcomes cache).attempts = 1 ∧
    (FortitudeClient.make_request cfg method url params use_cache now outcomes cache).delays = [] ∧
    (r.decodes = true →
      (FortitudeClient.make_request cfg method url params use_cache now outcomes cache).result
        = .apiError ⟨r.doc.message.getD "Unknown error", r.doc.error_code, some r.status,
            r.doc.request_id, r.doc.details⟩) ∧
    (r.decodes = false →
      (FortitudeClient.make_request cfg method url params use_cache now outcomes cache).result
        = .apiError ⟨"HTTP " ++ toString r.status ++ ": " ++ r.text, none, some r.status,
            none, none⟩) := by
  rw [FortitudeClient.make_request_miss cfg method url params use_cache now outcomes cache hmiss]
  unfold FortitudeClient.attemptLoop
  rw [h0]
  dsimp only
  rw [if_neg hne, if_neg (fun hc => hnt hc.1)]
  refine ⟨?_, ?_, ?_, ?_⟩
  · split <;> rfl
  · split <;> rfl
  · intro hdec; rw [hdec]; simp [structuredError]
  · intro hdec; rw [hdec]; simp [rawStatusError]

/-- A 404 response with a decodable structured body, for the C5 witness. -/
def resp404 : HttpResponse :=
  ⟨404, true, true, ⟨some "not found", some "NOT_FOUND", some "req-1", some "missing", ""⟩, "t"⟩

/-- Witness for C5: the 404 surfaces on the first attempt with the body's
fields copied into the error. -/
theorem make_request_client_error_witness :
    (FortitudeClient.make_request ⟨3, false, 300⟩ "GET" "/x" [] true 0
      [.response resp404] []).attempts = 1 ∧
    (FortitudeClient.make_request ⟨3, false, 300⟩ "GET" "/x" [] true 0
      [.response resp404] []).delays = [] ∧
    (resp404.decodes = true →
      (FortitudeClient.make_request ⟨3, false, 300⟩ "GET" "/x" [] true 0
        [.response resp404] []).result
        = .apiError ⟨resp404.doc.message.getD "Unknown error", resp404.doc.error_code,
            some resp404.status, resp404.doc.request_id, resp404.doc.details⟩) ∧
    (resp404.decodes = false →
      (FortitudeClient.make_request ⟨3, false, 300⟩ "GET" "/x" [] true 0
        [.response resp404] []).result
        = .apiError ⟨"HTTP " ++ toString resp404.status ++ ": " ++ resp404.text, none,
            some resp404.status, none, none⟩) :=
  make_request_client_error_immediate ⟨3, false, 300⟩ "GET" "/x" [] true 0
    [.response resp404] [] resp404 (by decide) rfl (by decide) (by decide)

/-! ## Expired cache entries: treated as absent, never removed by the lookup -/

/-- A loop entered with at least one iteration left always dispatches at
least one transport attempt. -/
theorem FortitudeClient.attemptLoop_attempts_pos (p : LoopParams)
    (outcomes : List TransportOutcome) (cache : Cache) (attempt n : Nat) :
    1 ≤ (FortitudeClient.attemptLoop p outcomes cache attempt (n + 1)).attempts := by
  unfold FortitudeClient.attemptLoop
  cases outcomeAt outcomes attempt with
  | exception cause => dsimp only; split <;> (dsimp only; omega)
  | response r =>
    dsimp only
    split
    · split
      · dsimp only; omega
      · split <;> (dsimp only; omega)
    · split
      · dsimp only; omega
      · split <;> (dsimp only; omega)

/-- The attempt loop only ever prepends cache entries: every key present
before the loop is still present after it. -/
theorem FortitudeClient.attemptLoop_cache_mono (p : LoopParams)
    (outcomes : List TransportOutcome) (cache : Cache) (attempt iters : Nat)
    (k : String) (hk : (cacheFind k cache).isSome) :
    (cacheFind k (FortitudeClient.attemptLoop p outcomes cache attempt iters).cache).isSome := by
  induction iters generalizing cache attempt with
  | zero => simpa [FortitudeClient.attemptLoop] using hk
  | succ n ih =>
    unfold FortitudeClient.attemptLoop
    cases outcomeAt outcomes attempt with
    | exception cause =>
      dsimp only
      split
      · exact ih cache (attempt + 1) hk
      · simpa using hk
    | response r =>
      dsimp only
      split
      · split
        · dsimp only
          split
          · rw [cacheFind]
            split
            · simp
            · simpa using hk
          · simpa using hk
        · split
          · exact ih cache (attempt + 1) hk
          · simpa using hk
      · split
        · exact ih cache (attempt + 1) hk
        · split <;> simpa using hk

/-- C6: when the matching cache entry has expired (`now − timestamp ≥ TTL`),
the call treats it as absent and performs a fresh transport attempt, and no
key — in particular not the expired entry's — is removed from the cache map
by the lookup or by the rest of the call. -/
theorem make_request_expired_entry_fresh_attempt (cfg : ClientConfig)
    (method url : String) (params : List (String × String)) (use_cache : Bool)
    (now : Int) (outcomes : List TransportOutcome) (cache : Cache) (entry : CacheEntry)
    (hl : cacheFind (cacheKey method url params) cache = some entry)
    (hexp : ¬ (now - entry.timestamp < cfg.cache_ttl)) :
    1 ≤ (FortitudeClient.make_request cfg method url params use_cache now
        outcomes cache).attempts ∧
    ∀ k, (cacheFind k cache).isSome →
      (cacheFind k (FortitudeClient.make_request cfg method url params use_cache now
        outcomes cache).cache).isSome := by
  have hmiss : cacheServe use_cache cfg.enable_cache method (cacheKey method url params)
      cfg.cache_ttl now cache = none := by
    unfold cacheServe
    split
    · rw [hl]
      exact if_neg hexp
    · rfl
  rw [FortitudeClient.make_request_miss cfg method url params use_cache now outcomes cache hmiss]
  constructor
  · exact FortitudeClient.attemptLoop_attempts_pos _ outcomes cache 0 cfg.max_retries
  · intro k hk
    exact FortitudeClient.attemptLoop_cache_mono _ outcomes cache 0 (cfg.max_retries + 1) k hk

/-- A stored payload used by the cache-related witnesses. -/
def cachedDoc : JsonDoc := ⟨none, none, none, none, "cached payload"⟩

/-- Witness for C6: an entry inserted at time 0 with TTL 10, looked up at
time 1000, forces a fresh transport attempt, and the expired entry is still
present in the final cache. -/
theorem make_request_expired_entry_witness :
    1 ≤ (FortitudeClient.make_request ⟨0, true, 10⟩ "GET" "/x" [] true 1000
      [.response ⟨503, true, true, {}, ""⟩]
      [(cacheKey "GET" "/x" [], ⟨cachedDoc, 0⟩)]).attempts ∧
    (cacheFind (cacheKey "GET" "/x" [])
      (FortitudeClient.make_request ⟨0, true, 10⟩ "GET" "/x" [] true 1000
        [.response ⟨503, true, true, {}, ""⟩]
        [(cacheKey "GET" "/x" [], ⟨cachedDoc, 0⟩)]).cache).isSome :=
  ⟨(make_request_expired_entry_fresh_attempt ⟨0, true, 10⟩ "GET" "/x" [] true 1000
      [.response ⟨503, true, true, {}, ""⟩] [(cacheKey "GET" "/x" [], ⟨cachedDoc, 0⟩)]
      ⟨cachedDoc, 0⟩ (by simp [cacheFind]) (by decide)).1,
    (make_request_expired_entry_fresh_attempt ⟨0, true, 10⟩ "GET" "/x" [] true 1000
      [.response ⟨503, true, true, {}, ""⟩] [(cacheKey "GET" "/x" [], ⟨cachedDoc, 0⟩)]
      ⟨cachedDoc, 0⟩ (by simp [cacheFind]) (by decide)).2
      (cacheKey "GET" "/x" []) (by simp [cacheFind])⟩

/-! ## Cache-key canonicalization -/

/-- Sorting by key maps permuted duplicate-free parameter lists to the same
sorted list. -/
theorem insertionSort_eq_of_perm (p₁ p₂ : List (String × String))
    (hperm : p₁.Perm p₂) (hnd : (p₁.map Prod.fst).Nodup) :
    List.insertionSort keyLE p₁ = List.insertionSort keyLE p₂ := by
  have hperm' : (List.insertionSort keyLE p₁).Perm (List.insertionSort keyLE p₂) :=
    (List.perm_insertionSort keyLE p₁).trans (hperm.trans (List.perm_insertionSort keyLE p₂).symm)
  have hs₁ : List.Sorted keyLE (List.insertionSort keyLE p₁) :=
    List.sorted_insertionSort keyLE p₁
  have hs₂ : List.Sorted keyLE (List.insertionSort keyLE p₂) :=
    List.sorted_insertionSort keyLE p₂
  have hnd₁ : ((List.insertionSort keyLE p₁).map Prod.fst).Nodup :=
    (((List.perm_insertionSort keyLE p₁).map Prod.fst).nodup_iff).mpr hnd
  have hnd₂ : ((List.insertionSort keyLE p₂).map Prod.fst).Nodup := by
    refine (((List.perm_insertionSort keyLE p₂).map Prod.fst).nodup_iff).mpr ?_
    exact ((hperm.map Prod.fst).nodup_iff).mp hnd
  have hne₁ : (List.insertionSort keyLE p₁).Pairwise (fun a b => a.1 ≠ b.1) :=
    List.pairwise_map.mp hnd₁
  have hne₂ : (List.insertionSort keyLE p₂).Pairwise (fun a b => a.1 ≠ b.1) :=
    List.pairwise_map.mp hnd₂
  have hlt₁ : (List.insertionSort keyLE p₁).Pairwise (fun a b : String × String => a.1 < b.1) :=
    (hs₁.and hne₁).imp (fun h => lt_of_le_of_ne h.1 h.2)
  have hlt₂ : (List.insertionSort keyLE p₂).Pairwise (fun a b : String × String => a.1 < b.1) :=
    (hs₂.and hne₂).imp (fun h => lt_of_le_of_ne h.1 h.2)
  haveI : IsAntisymm (String × String) (fun a b : String × String => a.1 < b.1) :=
    ⟨fun a b h₁ h₂ => absurd h₂ (lt_asymm h₁)⟩
  exact List.eq_of_perm_of_sorted hperm' hlt₁ hlt₂

/-- Permuting a duplicate-free parameter mapping leaves the cache key
unchanged. -/
theorem cacheKey_congr (method url : String) (p₁ p₂ : List (String × String))
    (hperm : p₁.Perm p₂) (hnd : (p₁.map Prod.fst).Nodup) :
    cacheKey method url p₁ = cacheKey method url p₂ := by
  unfold cacheKey jsonDumpsSorted
  rw [insertionSort_eq_of_perm p₁ p₂ hperm hnd]

/-- C9: the cache key is a deterministic function of method, URL and query
parameters, and canonicalization sorts parameter keys: two parameter
mappings equal as mappings (the same pairs in any insertion order, keys
duplicate-free) give equal cache keys for the same method and URL. -/
theorem cacheKey_eq_of_perm (method url : String) (p₁ p₂ : List (String × String))
    (hperm : p₁.Perm p₂) (hnd : (p₁.map Prod.fst).Nodup) :
    cacheKey method url p₁ = cacheKey method url p₂ :=
  cacheKey_congr method url p₁ p₂ hperm hnd

/-- Witness for C9: two insertion orders of the same two-parameter mapping
produce the same key. -/
theorem cacheKey_eq_of_perm_witness :
    [("b", "2"), ("a", "1")].Perm [("a", "1"), ("b", "2")] ∧
    ((([("b", "2"), ("a", "1")] : List (String × String)).map Prod.fst).Nodup) ∧
    cacheKey "GET" "/api/v1/research" [("b", "2"), ("a", "1")]
      = cacheKey "GET" "/api/v1/research" [("a", "1"), ("b", "2")] :=
  ⟨by decide, by decide,
    cacheKey_eq_of_perm "GET" "/api/v1/research" _ _ (by decide) (by decide)⟩

/-! ## Cache population and the second-call fast path -/

/-- When the loop returns a success and cache writing is on, the written
entry — the returned payload stamped with the call's time — is found at the
call's key. -/
theorem FortitudeClient.attemptLoop_success_write (p : LoopParams)
    (outcomes : List TransportOutcome) (cache : Cache) (attempt iters : Nat)
    (d : JsonDoc) (hw : p.cacheWrite = true)
    (h : (FortitudeClient.attemptLoop p outcomes cache attempt iters).result
      = some (.success d)) :
    cacheFind p.key (FortitudeClient.attemptLoop p outcomes cache attempt iters).cache
      = some ⟨d, p.now⟩ := by
  induction iters generalizing cache attempt with
  | zero => simp [FortitudeClient.attemptLoop] at h
  | succ n ih =>
    unfold FortitudeClient.attemptLoop at h ⊢
    cases ho : outcomeAt outcomes attempt with
    | exception cause =>
      rw [ho] at h
      dsimp only at h ⊢
      by_cases hlt : attempt < p.max_retries
      · rw [if_pos hlt] at h ⊢
        exact ih cache (attempt + 1) h
      · rw [if_neg hlt] at h
        simp at h
    | response r =>
      rw [ho] at h
      dsimp only at h ⊢
      by_cases h200 : r.status = 200
      · rw [if_pos h200] at h ⊢
        by_cases hdec : r.decodes = true
        · rw [if_pos hdec] at h ⊢
          dsimp only at h ⊢
          have hd : r.doc = d := by simpa using h
          rw [if_pos hw]
          simp [cacheFind, hd]
        · rw [if_neg hdec] at h ⊢
          by_cases hlt : attempt < p.max_retries
          · rw [if_pos hlt] at h ⊢
            exact ih cache (attempt + 1) h
          · rw [if_neg hlt] at h
            simp at h
      · rw [if_neg h200] at h ⊢
        by_cases htr : r.status ∈ transientStatuses ∧ attempt < p.max_retries
        · rw [if_pos htr] at h ⊢
          exact ih cache (attempt + 1) h
        · rw [if_neg htr] at h
          by_cases hdec : r.decodes = true
          · rw [if_pos hdec] at h
            simp at h
          · rw [if_neg hdec] at h
            simp at h

/-- C3: with caching enabled, after a first successful cacheable GET call
that was not itself served from the cache, a second call — same method and
URL, query parameters equal as a mapping — issued while
`now − insertion timestamp < TTL` returns the first call's stored result
and performs zero transport attempts (and no sleeps, and no cache change). -/
theorem make_request_cached_second_call (cfg : ClientConfig) (url : String)
    (params params' : List (String × String)) (now₁ now₂ : Int)
    (outcomes outcomes' : List TransportOutcome) (cache : Cache) (d : JsonDoc)
    (hen : cfg.enable_cache = true)
    (hperm : params.Perm params')
    (hnd : (params.map Prod.fst).Nodup)
    (hmiss : cacheServe true cfg.enable_cache "GET" (cacheKey "GET" url params)
      cfg.cache_ttl now₁ cache = none)
    (hsucc : (FortitudeClient.make_request cfg "GET" url params true now₁ outcomes cache).result
      = .success d)
    (httl : now₂ - now₁ < cfg.cache_ttl) :
    FortitudeClient.make_request cfg "GET" url params' true now₂ outcomes'
        (FortitudeClient.make_request cfg "GET" url params true now₁ outcomes cache).cache
      = ⟨.success d, 0, [],
          (FortitudeClient.make_request cfg "GET" url params true now₁ outcomes cache).cache⟩ := by
  have h1 := FortitudeClient.make_request_miss cfg "GET" url params true now₁ outcomes cache hmiss
  rw [h1] at hsucc ⊢
  dsimp only at hsucc ⊢
  cases hres : (FortitudeClient.attemptLoop
      ⟨cfg.max_retries, true && cfg.enable_cache && decide ("GET" = "GET"),
        cacheKey "GET" url params, now₁⟩ outcomes cache 0 (cfg.max_retries + 1)).result with
  | none =>
    exact absurd hres (FortitudeClient.attemptLoop_result_isSome _ outcomes cache 0
      (cfg.max_retries + 1) (by dsimp only; omega) (Nat.zero_le _))
  | some x =>
    rw [hres] at hsucc
    simp only [Option.getD_some] at hsucc
    subst hsucc
    have hw : (⟨cfg.max_retries, true && cfg.enable_cache && decide ("GET" = "GET"),
        cacheKey "GET" url params, now₁⟩ : LoopParams).cacheWrite = true := by
      simp [hen]
    have hwrite := FortitudeClient.attemptLoop_success_write
      ⟨cfg.max_retries, true && cfg.enable_cache && decide ("GET" = "GET"),
        cacheKey "GET" url params, now₁⟩ outcomes cache 0 (cfg.max_retries + 1) d hw hres
    have hkey : cacheKey "GET" url params' = cacheKey "GET" url params :=
      (cacheKey_congr "GET" url params params' hperm hnd).symm
    have hserve : cacheServe true cfg.enable_cache "GET" (cacheKey "GET" url params')
        cfg.cache_ttl now₂
        (FortitudeClient.attemptLoop
          ⟨cfg.max_retries, true && cfg.enable_cache && decide ("GET" = "GET"),
            cacheKey "GET" url params, now₁⟩ outcomes cache 0 (cfg.max_retries + 1)).cache
        = some d := by
      unfold cacheServe
      rw [if_pos ⟨rfl, hen, rfl⟩, hkey, hwrite]
      exact if_pos httl
    exact FortitudeClient.make_request_hit cfg "GET" url params' true now₂ outcomes' _ d hserve

/-- Witness for C3: a 200 response populates the cache at time 0; a reordered
but equal parameter mapping at time 100 (TTL 300) is served from the cache. -/
theorem make_request_cached_second_call_witness :
    FortitudeClient.make_request ⟨0, true, 300⟩ "GET" "/health" [("a", "1"), ("b", "2")] true 100 []
        (FortitudeClient.make_request ⟨0, true, 300⟩ "GET" "/health" [("b", "2"), ("a", "1")] true 0
          [.response ⟨200, true, true, cachedDoc, ""⟩] []).cache
      = ⟨.success cachedDoc, 0, [],
          (FortitudeClient.make_request ⟨0, true, 300⟩ "GET" "/health" [("b", "2"), ("a", "1")] true 0
            [.response ⟨200, true, true, cachedDoc, ""⟩] []).cache⟩ :=
  make_request_cached_second_call ⟨0, true, 300⟩ "/health" [("b", "2"), ("a", "1")]
    [("a", "1"), ("b", "2")] 0 100 [.response ⟨200, true, true, cachedDoc, ""⟩] [] [] cachedDoc
    rfl (by decide) (by decide) (by decide) (by decide) (by decide)

/-! ## Blocking vs cooperative variant -/

/-- Outcome on which the two HTTP libraries' body decoding cannot diverge:
the content type says JSON exactly when the text parses, and a 200 body
always parses. -/
def agreeingOutcome (o : TransportOutcome) : Bool :=
  match o with
  | .exception _ => true
  | .response r => (r.ctJson == r.decodes) && (r.status != 200 || r.decodes)

/-- Every dispatched outcome of an agreeing list is agreeing (the default
outcome is an exception, which always agrees). -/
theorem outcomeAt_agreeing (outcomes : List TransportOutcome)
    (hall : ∀ o ∈ outcomes, agreeingOutcome o = true) (i : Nat) :
    agreeingOutcome (outcomeAt outcomes i) = true := by
  unfold outcomeAt List.getD
  cases hg : outcomes.get? i with
  | none => rfl
  | some o => exact hall o (List.get?_mem hg)

/-- Over agreeing outcomes the cooperative loop computes exactly what the
blocking loop computes. -/
theorem attemptLoop_async_eq_sync (p : LoopParams) (outcomes : List TransportOutcome)
    (cache : Cache) (attempt iters : Nat)
    (hall : ∀ o ∈ outcomes, agreeingOutcome o = true) :
    AsyncFortitudeClient.attemptLoop p outcomes cache attempt iters
      = FortitudeClient.attemptLoop p outcomes cache attempt iters := by
  induction iters generalizing cache attempt with
  | zero => rfl
  | succ n ih =>
    unfold AsyncFortitudeClient.attemptLoop FortitudeClient.attemptLoop
    cases ho : outcomeAt outcomes attempt with
    | exception cause =>
      dsimp only
      by_cases hlt : attempt < p.max_retries
      · rw [if_pos hlt, if_pos hlt, ih cache (attempt + 1)]
      · rw [if_neg hlt, if_neg hlt]
    | response r =>
      have hag := outcomeAt_agreeing outcomes hall attempt
      rw [ho] at hag
      have hag' : (r.ctJson == r.decodes) = true ∧ ((r.status != 200) || r.decodes) = true := by
        simpa [agreeingOutcome, Bool.and_eq_true] using hag
      have hct : r.ctJson = r.decodes := by simpa using hag'.1
      have h200d : r.status = 200 → r.decodes = true := by
        intro h
        rcases (Bool.or_eq_true _ _).mp hag'.2 with hne | hd
        · exfalso; revert hne; simp [h]
        · exact hd
      dsimp only
      by_cases h200 : r.status = 200
      · rw [if_pos h200, if_pos h200]
        have hdec : r.decodes = true := h200d h200
        have hctt : r.ctJson = true := hct.trans hdec
        rw [if_pos hctt, if_pos hdec, if_pos hdec]
      · rw [if_neg h200, if_neg h200]
        by_cases htr : r.status ∈ transientStatuses ∧ attempt < p.max_retries
        · rw [if_pos htr, if_pos htr, ih cache (attempt + 1)]
        · rw [if_neg htr, if_neg htr]
          by_cases hdec : r.decodes = true
          · have hctt : r.ctJson = true := hct.trans hdec
            rw [if_pos hctt, if_pos hdec, if_pos hdec]
          · have hdecf : r.decodes = false := Bool.not_eq_true _ |>.mp hdec
            have hctf : r.ctJson = false := hct.trans hdecf
            rw [if_neg (by rw [hctf]; exact Bool.false_ne_true), if_neg hdec]

/-- On a live cache hit the cooperative call, like the blocking one, returns
the stored data without any transport attempt. -/
theorem AsyncFortitudeClient.async_make_request_hit (cfg : ClientConfig) (method url : String)
    (params : List (String × String)) (use_cache : Bool) (now : Int)
    (outcomes : List TransportOutcome) (cache : Cache) (d : JsonDoc)
    (h : cacheServe use_cache cfg.enable_cache method (cacheKey method url params)
      cfg.cache_ttl now cache = some d) :
    AsyncFortitudeClient.make_request cfg method url params use_cache now outcomes cache
      = ⟨.success d, 0, [], cache⟩ := by
  unfold AsyncFortitudeClient.make_request
  dsimp only
  rw [h]

/-- When the cache does not serve, the cooperative call is its attempt loop
entered at `attempt = 0`. -/
theorem AsyncFortitudeClient.async_make_request_miss (cfg : ClientConfig) (method url : String)
    (params : List (String × String)) (use_cache : Bool) (now : Int)
    (outcomes : List TransportOutcome) (cache : Cache)
    (h : cacheServe use_cache cfg.enable_cache method (cacheKey method url params)
      cfg.cache_ttl now cache = none) :
    AsyncFortitudeClient.make_request cfg method url params use_cache now outcomes cache
      = (fun lo => (⟨lo.result.getD (.apiError { message := "Max retries exceeded" }),
            lo.attempts, lo.delays, lo.cache⟩ : CallOutput))
          (AsyncFortitudeClient.attemptLoop
            ⟨cfg.max_retries, use_cache && cfg.enable_cache && decide (method = "GET"),
              cacheKey method url params, now⟩ outcomes cache 0 (cfg.max_retries + 1)) := by
  unfold AsyncFortitudeClient.make_request
  dsimp only
  rw [h]

/-- C7 (amended): the blocking and cooperative `_make_request` produce the
same result, attempt count, delay sequence and final cache on every outcome
sequence in which each response's JSON content type coincides with its
body's decodability and every 200 body decodes; outside that set the two
variants' differing exception handlers are observable. -/
theorem make_request_async_eq_sync_on_agreeing (cfg : ClientConfig) (method url : String)
    (params : List (String × String)) (use_cache : Bool) (now : Int)
    (outcomes : List TransportOutcome) (cache : Cache)
    (hall : ∀ o ∈ outcomes, agreeingOutcome o = true) :
    AsyncFortitudeClient.make_request cfg method url params use_cache now outcomes cache
      = FortitudeClient.make_request cfg method url params use_cache now outcomes cache := by
  cases h : cacheServe use_cache cfg.enable_cache method (cacheKey method url params)
      cfg.cache_ttl now cache with
  | some d =>
    rw [AsyncFortitudeClient.async_make_request_hit cfg method url params use_cache now outcomes cache d h,
      FortitudeClient.make_request_hit cfg method url params use_cache now outcomes cache d h]
  | none =>
    rw [AsyncFortitudeClient.async_make_request_miss cfg method url params use_cache now outcomes cache h,
      FortitudeClient.make_request_miss cfg method url params use_cache now outcomes cache h,
      attemptLoop_async_eq_sync _ outcomes cache 0 (cfg.max_retries + 1) hall]

/-- A 404 whose body is valid JSON text served with a non-JSON content type:
`requests` parses it, `aiohttp` raises `ContentTypeError`. -/
def mismatchResp : HttpResponse := ⟨404, false, true, ⟨some "boom", none, none, none, ""⟩, "raw"⟩

/-- Counterexample to C7 as stated: on a 404 response carrying valid JSON
text under a non-JSON content type, the blocking client surfaces the
structured error parsed from the body while the cooperative client's
`except aiohttp.ContentTypeError` handler surfaces the raw-text error — the
two variants produce different `FortitudeAPIError`s from identical transport
outcomes. -/
theorem make_request_sync_async_counterexample :
    (FortitudeClient.make_request ⟨0, false, 300⟩ "GET" "/x" [] true 0
      [.response mismatchResp] []).result = .apiError ⟨"boom", none, some 404, none, none⟩ ∧
    (AsyncFortitudeClient.make_request ⟨0, false, 300⟩ "GET" "/x" [] true 0
      [.response mismatchResp] []).result
      = .apiError ⟨"HTTP 404: raw", none, some 404, none, none⟩ ∧
    AsyncFortitudeClient.make_request ⟨0, false, 300⟩ "GET" "/x" [] true 0
        [.response mismatchResp] []
      ≠ FortitudeClient.make_request ⟨0, false, 300⟩ "GET" "/x" [] true 0
        [.response mismatchResp] [] := by
  refine ⟨rfl, ?_, ?_⟩
  · decide
  · decide

/-- Witness for the amended C7: a 503 then a 200, all agreeing, give
identical behaviour in the two variants. -/
theorem make_request_sync_async_witness :
    AsyncFortitudeClient.make_request ⟨1, false, 300⟩ "GET" "/x" [] true 0
      [.response ⟨503, true, true, {}, ""⟩, .response ⟨200, true, true, {}, ""⟩] []
      = FortitudeClient.make_request ⟨1, false, 300⟩ "GET" "/x" [] true 0
      [.response ⟨503, true, true, {}, ""⟩, .response ⟨200, true, true, {}, ""⟩] [] :=
  make_request_async_eq_sync_on_agreeing ⟨1, false, 300⟩ "GET" "/x" [] true 0
    [.response ⟨503, true, true, {}, ""⟩, .response ⟨200, true, true, {}, ""⟩] []
    (by decide)

/-! ## Configuration resolution -/

/-- Counterexample to C8 as stated: explicitly passing `max_retries = 0` or
`timeout = 0` is overridden — Python's `x or y` treats the falsy `0` as
absent, so the default (or environment) wins over the explicit argument. -/
theorem resolve_explicit_zero_overridden :
    resolve_max_retries (some 0) none = 3 ∧ resolve_timeout (some 0) none = 30 ∧
    (3 : Int) ≠ 0 ∧ (30 : Int) ≠ 0 := by decide

/-- C8 (amended): each configuration input is resolved to the explicitly
passed value only when that value is truthy (non-zero number, non-empty
string); a falsy or absent explicit value falls through to the environment
variable when set, else the documented default (30, 3,
`http://localhost:8080` — the base address additionally stripped of
trailing slashes). -/
theorem config_resolution_amended (t r : Int) (b : String)
    (envT envR : Option Int) (envB : Option String)
    (ht : t ≠ 0) (hr : r ≠ 0) (hb : b ≠ "") :
    resolve_timeout (some t) envT = t ∧
    resolve_max_retries (some r) envR = r ∧
    resolve_base_url (some b) envB = rstripSlash b ∧
    resolve_timeout none envT = envT.getD 30 ∧
    resolve_max_retries none envR = envR.getD 3 ∧
    resolve_base_url none envB = rstripSlash (envB.getD "http://localhost:8080") ∧
    resolve_timeout (some 0) envT = envT.getD 30 ∧
    resolve_max_retries (some 0) envR = envR.getD 3 ∧
    resolve_base_url (some "") envB = rstripSlash (envB.getD "http://localhost:8080") := by
  refine ⟨?_, ?_, ?_, rfl, rfl, rfl, ?_, ?_, ?_⟩
  · unfold resolve_timeout; exact if_pos ht
  · unfold resolve_max_retries; exact if_pos hr
  · unfold resolve_base_url; dsimp only; rw [if_pos hb]
  · simp [resolve_timeout]
  · simp [resolve_max_retries]
  · simp [resolve_base_url]

/-- Witness for the amended C8 at concrete values. -/
theorem config_resolution_amended_witness :
    resolve_timeout (some 7) none = 7 ∧
    resolve_max_retries (some 2) none = 2 ∧
    resolve_base_url (some "http://h/") none = rstripSlash "http://h/" ∧
    resolve_timeout none none = Option.getD none 30 ∧
    resolve_max_retries none none = Option.getD none 3 ∧
    resolve_base_url none none = rstripSlash (Option.getD none "http://localhost:8080") ∧
    resolve_timeout (some 0) none = Option.getD none 30 ∧
    resolve_max_retries (some 0) none = Option.getD none 3 ∧
    resolve_base_url (some "") none = rstripSlash (Option.getD none "http://localhost:8080") :=
  config_resolution_amended 7 2 "http://h/" none none none
    (by decide) (by decide) (by decide)
